import Mathlib

/-!
Shallow embedding of the inventory / transaction / reporting handlers of the
computer-service management backend (TypeScript + drizzle ORM over Postgres).

The database is modelled as lists of rows; `numeric(12,2)` money columns are
modelled as exact rationals (ℚ), matching the decimal-text storage of the
datastore; timestamps are modelled as integers.  Each handler is translated
from its TypeScript source: reads with `.limit(1)` become `List.find?`,
`update ... where eq(id)` becomes a map over the row list touching the rows
with the matching id, `insert ... returning` appends a row, and thrown errors
become `Except.error` with a typed error carrying the same data as the thrown
message.
-/

set_option maxHeartbeats 1000000

namespace KomputerServis

/-- Enum `product_type` from the schema. -/
inductive ProductType
  | sparepart
  | accessory
  | other
deriving DecidableEq, Repr

/-- Enum `stock_movement_type` with values `in` and `out`. -/
inductive MovementType
  | inM
  | outM
deriving DecidableEq, Repr

/-- Enum `service_status`. -/
inductive ServiceStatus
  | pending
  | in_progress
  | completed
  | cancelled
deriving DecidableEq, Repr

/-- Enum `transaction_type` with values `sale` and `service`. -/
inductive TransactionType
  | sale
  | service
deriving DecidableEq, Repr

/-- A row of `products`: `price` is `numeric(12,2)` (exact decimal, modelled
as ℚ); `stock_quantity` is a plain integer column with no check constraint,
so it may go negative. -/
structure Product where
  id : Nat
  name : String
  description : Option String
  type : ProductType
  price : ℚ
  stock_quantity : Int
  minimum_stock : Int
  created_at : Int
  updated_at : Int
deriving DecidableEq, Repr

/-- A row of `stock_movements`. -/
structure StockMovement where
  id : Nat
  product_id : Nat
  type : MovementType
  quantity : Int
  price_per_unit : Option ℚ
  notes : Option String
  created_at : Int
  created_by : Nat
deriving DecidableEq, Repr

/-- A row of `services`. -/
structure Service where
  id : Nat
  customer_id : Nat
  device_type : String
  device_brand : Option String
  device_model : Option String
  problem_description : String
  diagnosis : Option String
  repair_actions : Option String
  status : ServiceStatus
  estimated_cost : Option ℚ
  actual_cost : Option ℚ
  technician_id : Option Nat
  created_at : Int
  updated_at : Int
  completed_at : Option Int
deriving DecidableEq, Repr

/-- A row of `transactions`. -/
structure Transaction where
  id : Nat
  customer_id : Nat
  type : TransactionType
  service_id : Option Nat
  total_amount : ℚ
  paid_amount : ℚ
  payment_method : Option String
  notes : Option String
  created_at : Int
  created_by : Nat
deriving DecidableEq, Repr

/-- A row of `transaction_items`. -/
structure TransactionItem where
  id : Nat
  transaction_id : Nat
  product_id : Nat
  quantity : Int
  unit_price : ℚ
  total_price : ℚ
deriving DecidableEq, Repr

/-- The database state: one list of rows per table touched by the handlers. -/
structure DB where
  products : List Product
  movements : List StockMovement
  services : List Service
  transactions : List Transaction
  items : List TransactionItem
deriving DecidableEq, Repr

/-- Typed rendering of the errors thrown by the handlers: `NotFound`
messages and the insufficient-stock message that carries the available and
requested quantities. -/
inductive DomainError
  | notFound (entity : String) (id : Nat)
  | insufficientStock (available requested : Int)
deriving DecidableEq, Repr

/-- Model of `db.select().from(t).where(eq(t.id, id)).limit(1)` on products. -/
def findProduct (s : DB) (id : Nat) : Option Product :=
  s.products.find? (fun p => p.id == id)

/-- Same read pattern on transactions. -/
def findTransaction (s : DB) (id : Nat) : Option Transaction :=
  s.transactions.find? (fun t => t.id == id)

/-- Same read pattern on services (`update ... returning` result row 0). -/
def findService (s : DB) (id : Nat) : Option Service :=
  s.services.find? (fun v => v.id == id)

/-- Model of `db.update(products).set(f).where(eq(products.id, id))`: every row with
the matching id is rewritten by `f`, all other rows are untouched. -/
def updateProductRows (s : DB) (id : Nat) (f : Product → Product) : DB :=
  { s with products := s.products.map (fun p => if p.id == id then f p else p) }

/-- Input of `createStockMovement` (zod: quantity is a positive integer). -/
structure CreateStockMovementInput where
  product_id : Nat
  type : MovementType
  quantity : Int
  price_per_unit : Option ℚ
  notes : Option String
deriving DecidableEq, Repr

/-- Handler `createStockMovement` (src/server/src/handlers/create_stock_movement.ts):
verify the product exists (else NotFound); insert the movement row
(`created_by` hard-coded to 1); then add `quantity` for type `in`, and
`-quantity` for type `out`, to the `stock_quantity` of the product and
refresh `updated_at`.  `now` stands for
`new Date()`, `freshId` for the serial key given to the inserted row. -/
def createStockMovement (s : DB) (input : CreateStockMovementInput)
    (now : Int) (freshId : Nat) : Except DomainError (DB × StockMovement) :=
  match findProduct s input.product_id with
  | none => .error (.notFound "Product" input.product_id)
  | some _ =>
    let stockMovement : StockMovement :=
      { id := freshId
        product_id := input.product_id
        type := input.type
        quantity := input.quantity
        price_per_unit := input.price_per_unit
        notes := input.notes
        created_at := now
        created_by := 1 }
    let s₁ : DB := { s with movements := s.movements ++ [stockMovement] }
    let quantityChange : Int :=
      if input.type = MovementType.inM then input.quantity else -input.quantity
    let s₂ := updateProductRows s₁ input.product_id
      (fun p => { p with stock_quantity := p.stock_quantity + quantityChange
                         updated_at := now })
    .ok (s₂, stockMovement)

/-- Input of `createTransactionItem` (zod: quantity is a positive integer). -/
structure CreateTransactionItemInput where
  transaction_id : Nat
  product_id : Nat
  quantity : Int
  unit_price : ℚ
deriving DecidableEq, Repr

/-- The success path of `createTransactionItem`: compute
`totalPrice = quantity * unit_price`, insert the item row, and set the
`stock_quantity` of the product to the read value (`stockBefore`) minus the
quantity, refreshing `updated_at`. -/
def itemSuccessPath (s : DB) (input : CreateTransactionItemInput)
    (now : Int) (freshId : Nat) (stockBefore : Int) : DB × TransactionItem :=
  let totalPrice : ℚ := input.quantity * input.unit_price
  let transactionItem : TransactionItem :=
    { id := freshId
      transaction_id := input.transaction_id
      product_id := input.product_id
      quantity := input.quantity
      unit_price := input.unit_price
      total_price := totalPrice }
  let s₁ : DB := { s with items := s.items ++ [transactionItem] }
  let s₂ := updateProductRows s₁ input.product_id
    (fun p => { p with stock_quantity := stockBefore - input.quantity
                       updated_at := now })
  (s₂, transactionItem)

/-- Handler `createTransactionItem` (the `export const` implementation):
verify the transaction exists (else NotFound), verify the product exists
(else NotFound), throw `Insufficient stock. Available: .., Requested: ..`
when `product[0].stock_quantity < input.quantity`; otherwise run the
insert-and-decrement success path. -/
def createTransactionItem (s : DB) (input : CreateTransactionItemInput)
    (now : Int) (freshId : Nat) : Except DomainError (DB × TransactionItem) :=
  match findTransaction s input.transaction_id with
  | none => .error (.notFound "Transaction" input.transaction_id)
  | some _ =>
    match findProduct s input.product_id with
    | none => .error (.notFound "Product" input.product_id)
    | some product =>
      if product.stock_quantity < input.quantity then
        .error (.insufficientStock product.stock_quantity input.quantity)
      else
        .ok (itemSuccessPath s input now freshId product.stock_quantity)

/-- The observable state after one `createTransactionItem` call, whether it
succeeded or threw: a throw happens before any insert or update, so the
failed call leaves the database as it was. -/
def stepItem (s : DB) (input : CreateTransactionItemInput)
    (now : Int) (freshId : Nat) : DB :=
  match createTransactionItem s input now freshId with
  | .ok (s', _) => s'
  | .error _ => s

/-- A sequentially executed batch of `createTransactionItem` calls. -/
def runItems (s : DB) : List (CreateTransactionItemInput × Int × Nat) → DB
  | [] => s
  | (input, now, freshId) :: rest => runItems (stepItem s input now freshId) rest

/-- Handler `getLowStockProducts`
(src/server/src/handlers/get_low_stock_products.ts): selects the products
where `lt(stock_quantity, minimum_stock)` — a strict comparison. -/
def getLowStockProducts (s : DB) : List Product :=
  s.products.filter (fun p => p.stock_quantity < p.minimum_stock)

/-- Handler `getProduct` (src/server/src/handlers/get_product.ts): select by
id, return null when no row matches. -/
def getProduct (s : DB) (id : Nat) : Option Product :=
  findProduct s id

/-- Aggregate `SUM(quantity)` over a movement selection: `NULL` (none)
when the selection is empty, otherwise the sum. -/
def sqlSumInt (l : List Int) : Option Int :=
  if l.isEmpty then none else some l.sum

/-- Test `2 ^ e ≤ num / den` for a positive fraction by integer
cross-multiplication. -/
def pow2le (e : Int) (num : Int) (den : Nat) : Bool :=
  if 0 ≤ e then decide (Int.ofNat (2 ^ e.toNat) * (den : Int) ≤ num)
  else decide ((den : Int) ≤ num * Int.ofNat (2 ^ (-e).toNat))

/-- Starting from the invariant `2 ^ e ≤ num / den`, advance e while
`2 ^ (e + 1) ≤ num / den`; with enough fuel this finds the binade exponent
of the fraction. -/
def findExpF : Nat → Int → Int → Nat → Int
  | 0, e, _, _ => e
  | fuel + 1, e, num, den =>
    if pow2le (e + 1) num den then findExpF fuel (e + 1) num den else e

/-- Round the positive fraction `num / den` to the nearest binary64 double
(round-to-nearest, ties to even), returning the rounded 53-bit significand
together with its binade exponent: scale the fraction into the significand
range `[2 ^ 52, 2 ^ 53)` and round to an integer.  Valid for magnitudes
between `2 ^ (-80)` and `2 ^ 80` — the normal binary64 range covering every
stock and money value in this system (subnormals and overflow excluded). -/
def roundPosFrac (num : Int) (den : Nat) : Int × Int :=
  let e := findExpF 160 (-80) num den
  let xnum : Int :=
    if 0 ≤ 52 - e then num * Int.ofNat (2 ^ (52 - e).toNat) else num
  let xden : Nat :=
    if 0 ≤ 52 - e then den else den * 2 ^ (e - 52).toNat
  let n : Int := xnum.ediv (xden : Int)
  let rem : Int := xnum - n * (xden : Int)
  let n2 : Int :=
    if rem + rem < (xden : Int) then n
    else if (xden : Int) < rem + rem then n + 1
    else if Int.emod n 2 = 0 then n
    else n + 1
  (n2, e)

/-- Round the fraction `num / den` to the nearest binary64 double, as an
exact rational: handle the sign, round the magnitude, and scale the rounded
significand back by its binade exponent. -/
def roundFrac (num : Int) (den : Nat) : ℚ :=
  if num = 0 then mkRat 0 1
  else
    let sign : Int := if num < 0 then -1 else 1
    let p := roundPosFrac num.natAbs den
    if 0 ≤ p.2 - 52 then
      mkRat (sign * p.1 * Int.ofNat (2 ^ (p.2 - 52).toNat)) 1
    else mkRat (sign * p.1) (2 ^ (52 - p.2).toNat)

/-- Round a rational to the nearest binary64 double.  This models
`parseFloat` of a decimal numeric column value (correctly rounded per the
JavaScript spec). -/
def roundDouble (q : ℚ) : ℚ :=
  roundFrac q.num q.den

/-- A JavaScript `a * b` on numbers: the exact product rounded once to the
nearest binary64 double. -/
def jsMul (a b : ℚ) : ℚ :=
  roundFrac (a.num * b.num) (a.den * b.den)

/-- One row of the stock report. -/
structure StockReportRow where
  product_id : Nat
  product_name : String
  current_stock : Int
  minimum_stock : Int
  stock_in : Int
  stock_out : Int
  stock_value : ℚ
  is_low_stock : Bool
deriving DecidableEq, Repr

/-- The per-product body of `getStockReport`
(src/server/src/handlers/get_stock_report.ts): two aggregate queries sum the
movements of the product of type `in` and of type `out` (a NULL / absent sum is
read as 0); `stock_value = currentStock * parseFloat(price)` computed in
binary64 doubles (`parseFloat` rounds the decimal column value to a double,
and the multiplication rounds once more);
`is_low_stock = stock_quantity <= minimum_stock`. -/
def stockReportRow (movements : List StockMovement) (product : Product) :
    StockReportRow :=
  let stockInResult := sqlSumInt
    ((movements.filter (fun m =>
        m.product_id == product.id && m.type == MovementType.inM)).map
      (fun m => m.quantity))
  let stockOutResult := sqlSumInt
    ((movements.filter (fun m =>
        m.product_id == product.id && m.type == MovementType.outM)).map
      (fun m => m.quantity))
  let stockIn := match stockInResult with | some t => t | none => 0
  let stockOut := match stockOutResult with | some t => t | none => 0
  let currentStock := product.stock_quantity
  let productPrice : ℚ := roundDouble product.price
  let stockValue : ℚ := jsMul (mkRat currentStock 1) productPrice
  let isLowStock := decide (currentStock ≤ product.minimum_stock)
  { product_id := product.id
    product_name := product.name
    current_stock := currentStock
    minimum_stock := product.minimum_stock
    stock_in := stockIn
    stock_out := stockOut
    stock_value := stockValue
    is_low_stock := isLowStock }

/-- Handler `getStockReport`: one report row per product. -/
def getStockReport (s : DB) : List StockReportRow :=
  s.products.map (stockReportRow s.movements)

/-- Model of `orderBy(desc(created_at))`: insert a movement into a list already
sorted by descending `created_at`. -/
def insertDescByCreatedAt (m : StockMovement) :
    List StockMovement → List StockMovement
  | [] => [m]
  | x :: xs =>
    if x.created_at ≤ m.created_at then m :: x :: xs
    else x :: insertDescByCreatedAt m xs

/-- Sort movements by descending `created_at` (insertion sort). -/
def sortDescByCreatedAt : List StockMovement → List StockMovement
  | [] => []
  | x :: xs => insertDescByCreatedAt x (sortDescByCreatedAt xs)

/-- Handler `getStockMovementsByProduct`
(src/server/src/handlers/get_stock_movements_by_product.ts): select the
movements of the product, ordered by descending `created_at`. -/
def getStockMovementsByProduct (s : DB) (productId : Nat) :
    List StockMovement :=
  sortDescByCreatedAt (s.movements.filter (fun m => m.product_id == productId))

/-- Input of `getFinancialReport`: `period` is one of daily/weekly/monthly,
`start_date`/`end_date` are parsed to timestamps. -/
structure GetFinancialReportInput where
  period : String
  start_date : Int
  end_date : Int
deriving DecidableEq, Repr

/-- Output shape of `getFinancialReport`. -/
structure FinancialReport where
  period : String
  total_revenue : ℚ
  service_revenue : ℚ
  sales_revenue : ℚ
  total_transactions : Nat
  period_start : Int
  period_end : Int
deriving DecidableEq, Repr

/-- Aggregate `SUM(total_amount)` over a transaction selection (NULL when empty). -/
def sqlSumQ (l : List ℚ) : Option ℚ :=
  if l.isEmpty then none else some l.sum

/-- The date-range filter of `getFinancialReport`: the transactions with
`start_date <= created_at <= end_date` (both inclusive). -/
def matchingTransactions (s : DB) (input : GetFinancialReportInput) :
    List Transaction :=
  s.transactions.filter (fun t =>
    input.start_date ≤ t.created_at && t.created_at ≤ input.end_date)

/-- One group of the `groupBy(type)` aggregate: absent when the filtered
rows hold no transaction of the type, otherwise the type together with the
summed `total_amount` of the group. -/
def typeGroup (matching : List Transaction) (ty : TransactionType) :
    Option (TransactionType × ℚ) :=
  if (matching.filter (fun t => t.type == ty)).isEmpty then none
  else some (ty,
    ((matching.filter (fun t => t.type == ty)).map
      (fun t => t.total_amount)).sum)

/-- The `groupBy(type)` aggregate of `getFinancialReport`: one result row per
transaction type present in the filtered rows, each carrying the summed
`total_amount` of its group. -/
def typeGroupRows (matching : List Transaction) :
    List (TransactionType × ℚ) :=
  (typeGroup matching TransactionType.sale).toList
    ++ (typeGroup matching TransactionType.service).toList

/-- Handler `getFinancialReport` (the full implementation): filter the
transactions with `start_date <= created_at <= end_date`; a group-by-type
query yields per-type revenue (the loop writes type `service` into
`serviceRevenue` and `sale` into `salesRevenue`, both initialised to 0); an
overall query yields `total_revenue` (NULL sum read as 0) and the row count;
`period` and both dates are echoed into the output. -/
def getFinancialReport (s : DB) (input : GetFinancialReportInput) :
    FinancialReport :=
  let matching := matchingTransactions s input
  let typeResults := typeGroupRows matching
  let serviceRevenue : ℚ :=
    (typeResults.foldl (fun acc r =>
      if r.1 = TransactionType.service then r.2 else acc) 0)
  let salesRevenue : ℚ :=
    (typeResults.foldl (fun acc r =>
      if r.1 = TransactionType.sale then r.2 else acc) 0)
  let totalRevenue : ℚ :=
    match sqlSumQ (matching.map (fun t => t.total_amount)) with
    | some a => a
    | none => 0
  { period := input.period
    total_revenue := totalRevenue
    service_revenue := serviceRevenue
    sales_revenue := salesRevenue
    total_transactions := matching.length
    period_start := input.start_date
    period_end := input.end_date }

/-- Input of `updateService` (zod: every field below `id` is optional —
`none` models an absent field). -/
structure UpdateServiceInput where
  id : Nat
  diagnosis : Option String
  repair_actions : Option String
  status : Option ServiceStatus
  actual_cost : Option ℚ
  technician_id : Option Nat
deriving DecidableEq, Repr

/-- The `updateData` object of `updateService` applied to one service row:
only provided fields are written, `updated_at` is always refreshed, and
`completed_at` is set to now exactly when the provided status is
`completed`. -/
def applyServiceUpdate (input : UpdateServiceInput) (now : Int)
    (v : Service) : Service :=
  { v with
    updated_at := now
    diagnosis := match input.diagnosis with
      | some d => some d
      | none => v.diagnosis
    repair_actions := match input.repair_actions with
      | some r => some r
      | none => v.repair_actions
    status := match input.status with
      | some st => st
      | none => v.status
    completed_at :=
      if input.status = some ServiceStatus.completed then some now
      else v.completed_at
    actual_cost := match input.actual_cost with
      | some c => some c
      | none => v.actual_cost
    technician_id := match input.technician_id with
      | some t => some t
      | none => v.technician_id }

/-- The service table after `db.update(services).set(updateData).where(eq(id))`:
the rows with the matching id are rewritten by `updateData`. -/
def updatedServices (s : DB) (input : UpdateServiceInput) (now : Int) :
    List Service :=
  s.services.map (fun v =>
    if v.id == input.id then applyServiceUpdate input now v else v)

/-- Handler `updateService` (the `export const` implementation): update the
rows with the matching id with `updateData`, throw NotFound when
`returning()` is empty, otherwise return the updated row. -/
def updateService (s : DB) (input : UpdateServiceInput) (now : Int) :
    Except DomainError (DB × Service) :=
  match (updatedServices s input now).find? (fun v => v.id == input.id) with
  | none => .error (.notFound "Service" input.id)
  | some service =>
    .ok ({ s with services := updatedServices s input now }, service)

/-- Input of `updateProduct` (zod: every field below `id` is optional). -/
structure UpdateProductInput where
  id : Nat
  name : Option String
  description : Option String
  type : Option ProductType
  price : Option ℚ
  stock_quantity : Option Int
  minimum_stock : Option Int
deriving DecidableEq, Repr

/-- JavaScript `a || b` on an optional string: the default is taken when the
field is absent or the empty string (falsy). -/
def jsOrStr (o : Option String) (d : String) : String :=
  match o with
  | some s => if s = "" then d else s
  | none => d

/-- JavaScript `a || b` on an optional rational: the default is taken when
the field is absent or 0 (falsy). -/
def jsOrQ (o : Option ℚ) (d : ℚ) : ℚ :=
  match o with
  | some q => if q = 0 then d else q
  | none => d

/-- JavaScript `a || b` on an optional integer. -/
def jsOrInt (o : Option Int) (d : Int) : Int :=
  match o with
  | some n => if n = 0 then d else n
  | none => d

/-- Handler `updateProduct` (src/server/src/handlers/update_product.ts): a
placeholder that never consults the store — it resolves unconditionally with
a fabricated product built from the input and `||` defaults, raising no
NotFound error for a missing id. -/
def updateProduct (input : UpdateProductInput) (now : Int) :
    Except DomainError Product :=
  .ok
    { id := input.id
      name := jsOrStr input.name "Updated Product"
      description := (match input.description with
        | some s => if s = "" then none else some s
        | none => none)
      type := (match input.type with | some t => t | none => ProductType.sparepart)
      price := jsOrQ input.price 0
      stock_quantity := jsOrInt input.stock_quantity 0
      minimum_stock := jsOrInt input.minimum_stock 0
      created_at := now
      updated_at := now }

/-- Handler `updateCustomer`-style missing-id outcome is shared with
`updateService`; list endpoints such as `getServices` map over the whole
table. -/
def getServices (s : DB) : List Service :=
  s.services

/-- Handler `getTransactions`-style list endpoint over transactions. -/
def getTransactions (s : DB) : List Transaction :=
  s.transactions

/-- The observable state after one `createStockMovement` call. -/
def stepMovement (s : DB) (input : CreateStockMovementInput)
    (now : Int) (freshId : Nat) : DB :=
  match createStockMovement s input now freshId with
  | .ok (s', _) => s'
  | .error _ => s

/-- The stock of every product is non-negative. -/
def allStocksNonneg (s : DB) : Prop :=
  ∀ p ∈ s.products, 0 ≤ p.stock_quantity

instance (s : DB) : Decidable (allStocksNonneg s) := by
  unfold allStocksNonneg; infer_instance

/-- A five-in-stock demo product. -/
def demoProduct : Product :=
  { id := 1
    name := "RAM DDR4 8GB"
    description := none
    type := ProductType.sparepart
    price := 50
    stock_quantity := 5
    minimum_stock := 2
    created_at := 0
    updated_at := 0 }

/-- A store holding only `demoProduct`. -/
def demoDB : DB :=
  { products := [demoProduct]
    movements := []
    services := []
    transactions := []
    items := [] }

/-- An `out` movement of 10 against 5 in stock. -/
def demoOutMovement : CreateStockMovementInput :=
  { product_id := 1
    type := MovementType.outM
    quantity := 10
    price_per_unit := none
    notes := none }

/-- A demo transaction living in the store of `demoProduct`. -/
def demoTransaction : Transaction :=
  { id := 3
    customer_id := 1
    type := TransactionType.sale
    service_id := none
    total_amount := 100
    paid_amount := 100
    payment_method := some "cash"
    notes := none
    created_at := 0
    created_by := 1 }

/-- Store `demoDB` extended with `demoTransaction`. -/
def demoSaleDB : DB :=
  { demoDB with transactions := [demoTransaction] }

/-- A line item buying 3 of product 1 at 12.5 each. -/
def demoItemInput : CreateTransactionItemInput :=
  { transaction_id := 3
    product_id := 1
    quantity := 3
    unit_price := 25/2 }

/-- A product sitting exactly at its minimum stock. -/
def boundaryProduct : Product :=
  { id := 2
    name := "Exact Minimum Stock Item"
    description := none
    type := ProductType.accessory
    price := 30
    stock_quantity := 15
    minimum_stock := 15
    created_at := 0
    updated_at := 0 }

/-- A store holding only `boundaryProduct`. -/
def boundaryDB : DB :=
  { products := [boundaryProduct]
    movements := []
    services := []
    transactions := []
    items := [] }

/-- A completed demo service with a recorded completion time. -/
def demoService : Service :=
  { id := 4
    customer_id := 1
    device_type := "Laptop"
    device_brand := some "Asus"
    device_model := none
    problem_description := "No power"
    diagnosis := some "Dead PSU"
    repair_actions := none
    status := ServiceStatus.completed
    estimated_cost := some 120
    actual_cost := none
    technician_id := none
    created_at := 0
    updated_at := 0
    completed_at := some 99 }

/-- A store holding only `demoService`. -/
def demoServiceDB : DB :=
  { products := []
    movements := []
    services := [demoService]
    transactions := []
    items := [] }

/-- A later update that moves the status back to `in_progress`. -/
def demoReopenInput : UpdateServiceInput :=
  { id := 4
    diagnosis := none
    repair_actions := some "Replaced PSU"
    status := some ServiceStatus.in_progress
    actual_cost := none
    technician_id := none }

/-- A store with one sale and one service transaction, both at time 10. -/
def finDB : DB :=
  { products := []
    movements := []
    services := []
    transactions :=
      [{ id := 1, customer_id := 1, type := TransactionType.sale,
         service_id := none, total_amount := 40, paid_amount := 40,
         payment_method := none, notes := none, created_at := 10,
         created_by := 1 },
       { id := 2, customer_id := 1, type := TransactionType.service,
         service_id := some 1, total_amount := 60, paid_amount := 60,
         payment_method := none, notes := none, created_at := 10,
         created_by := 1 }]
    items := [] }

/-- A window matching no transaction of `finDB`. -/
def emptyWindowInput : GetFinancialReportInput :=
  { period := "weekly"
    start_date := 100
    end_date := 200 }

/-- The precision example of the spec: 7 in stock at 12.99 each. -/
def reportProduct : Product :=
  { id := 1
    name := "Thermal Paste"
    description := none
    type := ProductType.other
    price := mkRat 1299 100
    stock_quantity := 7
    minimum_stock := 1
    created_at := 0
    updated_at := 0 }

/-- Movements of `reportProduct` (30 in, 25 out) and of an unrelated
product. -/
def reportDB : DB :=
  { products := [reportProduct]
    movements :=
      [{ id := 1, product_id := 1, type := MovementType.inM, quantity := 30,
         price_per_unit := none, notes := none, created_at := 1,
         created_by := 1 },
       { id := 2, product_id := 1, type := MovementType.outM, quantity := 25,
         price_per_unit := none, notes := none, created_at := 2,
         created_by := 1 },
       { id := 3, product_id := 9, type := MovementType.inM, quantity := 500,
         price_per_unit := none, notes := none, created_at := 3,
         created_by := 1 }]
    services := []
    transactions := []
    items := [] }

/-- A product with 3 in stock at 0.10 each: the smallest case on which the
binary64 stock_value drifts from the exact decimal product. -/
def floatProduct : Product :=
  { id := 5
    name := "Cable Tie"
    description := none
    type := ProductType.other
    price := mkRat 1 10
    stock_quantity := 3
    minimum_stock := 0
    created_at := 0
    updated_at := 0 }

/-- The empty store. -/
def emptyDB : DB :=
  { products := []
    movements := []
    services := []
    transactions := []
    items := [] }

/-- An update aimed at product id 999, which does not exist in `emptyDB`. -/
def missingProductUpdate : UpdateProductInput :=
  { id := 999
    name := some "X"
    description := none
    type := none
    price := none
    stock_quantity := none
    minimum_stock := none }

/-- An update aimed at service id 999, which does not exist in `emptyDB`. -/
def missingServiceUpdate : UpdateServiceInput :=
  { id := 999
    diagnosis := none
    repair_actions := none
    status := none
    actual_cost := none
    technician_id := none }

/-- The product of the C9 scenario: created with 50 in stock. -/
def scenarioProduct : Product :=
  { id := 1
    name := "HDD 1TB"
    description := none
    type := ProductType.sparepart
    price := 10
    stock_quantity := 50
    minimum_stock := 5
    created_at := 0
    updated_at := 0 }

/-- A store holding only `scenarioProduct`, with no movements yet. -/
def scenarioDB : DB :=
  { products := [scenarioProduct]
    movements := []
    services := []
    transactions := []
    items := [] }

/-- Movement input against product 1. -/
def scenarioMove (ty : MovementType) (q : Int) : CreateStockMovementInput :=
  { product_id := 1
    type := ty
    quantity := q
    price_per_unit := none
    notes := none }

/-- The C10 witness store: a 10-in-stock product with an open sale. -/
def invariantDB : DB :=
  { products :=
      [{ id := 1, name := "SSD 512GB", description := none,
         type := ProductType.sparepart, price := 45, stock_quantity := 10,
         minimum_stock := 2, created_at := 0, updated_at := 0 }]
    movements := []
    services := []
    transactions :=
      [{ id := 3, customer_id := 1, type := TransactionType.sale,
         service_id := none, total_amount := 450, paid_amount := 450,
         payment_method := none, notes := none, created_at := 0,
         created_by := 1 }]
    items := [] }

/-- A batch buying all 10 and then 1 more (which must fail). -/
def invariantBatch : List (CreateTransactionItemInput × Int × Nat) :=
  [({ transaction_id := 3, product_id := 1, quantity := 10,
      unit_price := 45 }, 1, 11),
   ({ transaction_id := 3, product_id := 1, quantity := 1,
      unit_price := 45 }, 2, 12)]

/-! Helper lemmas -/

/-- Reading back the row with key `i` after a keyed update rewrites the read
row by the update function, provided the update preserves the key. -/
theorem find_after_keyed_update {α : Type} (l : List α) (key : α → Nat)
    (i : Nat) (f : α → α) (hf : ∀ a, key (f a) = key a) :
    (l.map (fun a => if key a == i then f a else a)).find?
        (fun a => key a == i)
      = (l.find? (fun a => key a == i)).map f := by
  induction l with
  | nil => rfl
  | cons x xs ih =>
    simp only [List.map_cons]
    by_cases h : key x = i
    · rw [if_pos (by simp [h]), List.find?_cons_of_pos _ (by simp [hf, h]),
        List.find?_cons_of_pos _ (by simp [h])]
      rfl
    · rw [if_neg (by simp [h]), List.find?_cons_of_neg _ (by simp [h]),
        List.find?_cons_of_neg _ (by simp [h]), ih]

/-- A NULL aggregate sum read back with a 0 default is the plain sum. -/
theorem sqlSumInt_elim (l : List Int) :
    (match sqlSumInt l with | some t => t | none => 0) = l.sum := by
  unfold sqlSumInt
  by_cases h : l = []
  · simp [h]
  · simp [h]

/-- Same for the rational aggregate. -/
theorem sqlSumQ_elim (l : List ℚ) :
    (match sqlSumQ l with | some a => a | none => 0) = l.sum := by
  unfold sqlSumQ
  by_cases h : l = []
  · simp [h]
  · simp [h]

/-- Reading back a product after `updateProductRows` on its id applies the
row update to the read row. -/
theorem findProduct_updateProductRows (s : DB) (i : Nat) (f : Product → Product)
    (hf : ∀ p, (f p).id = p.id) :
    findProduct (updateProductRows s i f) i = (findProduct s i).map f := by
  unfold findProduct updateProductRows
  exact find_after_keyed_update s.products Product.id i f hf

/-! Claim theorems -/

/-- C2. `createStockMovement`: when the product exists, a movement of
type `in` with quantity q leaves the product stock at `before + q` and a
movement of type `out` leaves it at `before − q`, with no lower bound; when
the product does not exist the call fails with a NotFound error. -/
theorem createStockMovement_spec (s : DB) (input : CreateStockMovementInput)
    (now : Int) (freshId : Nat) :
    (findProduct s input.product_id = none →
      createStockMovement s input now freshId
        = .error (.notFound "Product" input.product_id))
    ∧ (∀ p, findProduct s input.product_id = some p →
      ∃ s' m, createStockMovement s input now freshId = .ok (s', m)
        ∧ (input.type = MovementType.inM →
            (findProduct s' input.product_id).map Product.stock_quantity
              = some (p.stock_quantity + input.quantity))
        ∧ (input.type = MovementType.outM →
            (findProduct s' input.product_id).map Product.stock_quantity
              = some (p.stock_quantity - input.quantity))) := by
  constructor
  · intro hnone
    unfold createStockMovement
    rw [hnone]
  · intro p hp
    have hfind :
          findProduct
            (updateProductRows { s with movements := s.movements ++
                [{ id := freshId, product_id := input.product_id,
                   type := input.type, quantity := input.quantity,
                   price_per_unit := input.price_per_unit,
                   notes := input.notes, created_at := now, created_by := 1 }] }
              input.product_id
              (fun q => { q with
                stock_quantity := q.stock_quantity +
                  (if input.type = MovementType.inM then input.quantity
                   else -input.quantity)
                updated_at := now }))
            input.product_id
          = (findProduct s input.product_id).map
              (fun q => { q with
                stock_quantity := q.stock_quantity +
                  (if input.type = MovementType.inM then input.quantity
                   else -input.quantity)
                updated_at := now }) := by
        rw [findProduct_updateProductRows]
        · rfl
        · exact fun _ => rfl
    unfold createStockMovement
    rw [hp]
    refine ⟨_, _, rfl, ?_, ?_⟩
    all_goals
      intro hty
      rw [hfind]
      unfold findProduct at hp ⊢
      rw [hp]
      simp [hty]
      try ring

/-- Witness for C2: an `out` movement of 10 against a stock of 5 succeeds
and drives the stock to −5 — the negative result the claim allows. -/
theorem createStockMovement_spec_witness :
    ∃ s' m, createStockMovement demoDB demoOutMovement 7 42 = .ok (s', m)
      ∧ (findProduct s' 1).map Product.stock_quantity = some (-5) := by
  obtain ⟨s', m, hok, _, hout⟩ :=
    (createStockMovement_spec demoDB demoOutMovement 7 42).2 demoProduct
      (by decide)
  refine ⟨s', m, hok, ?_⟩
  rw [show (1 : Nat) = demoOutMovement.product_id from rfl, hout rfl]
  decide

/-- C1. `createTransactionItem`: when the referenced transaction and
product exist and the quantity does not exceed the stock, the item is
persisted with `total_price = quantity × unit_price` and the product
stock is decremented by exactly the quantity; when the quantity exceeds the
stock, the call fails with an InsufficientStock error carrying the
available and requested quantities and the database is unchanged (no item
row is written, the stock is untouched). -/
theorem createTransactionItem_spec (s : DB)
    (input : CreateTransactionItemInput) (now : Int) (freshId : Nat)
    (tx : Transaction) (p : Product)
    (ht : findTransaction s input.transaction_id = some tx)
    (hp : findProduct s input.product_id = some p) :
    (input.quantity ≤ p.stock_quantity →
      ∃ s' item, createTransactionItem s input now freshId = .ok (s', item)
        ∧ item.total_price = input.quantity * input.unit_price
        ∧ s'.items = s.items ++ [item]
        ∧ (findProduct s' input.product_id).map Product.stock_quantity
            = some (p.stock_quantity - input.quantity))
    ∧ (p.stock_quantity < input.quantity →
      createTransactionItem s input now freshId
          = .error (.insufficientStock p.stock_quantity input.quantity)
        ∧ stepItem s input now freshId = s) := by
  have hbody : createTransactionItem s input now freshId
      = (if p.stock_quantity < input.quantity
         then .error (.insufficientStock p.stock_quantity input.quantity)
         else .ok (itemSuccessPath s input now freshId p.stock_quantity)) := by
    unfold createTransactionItem
    rw [ht, hp]
  constructor
  · intro hq
    have hfind :
        findProduct (itemSuccessPath s input now freshId p.stock_quantity).1
            input.product_id
          = (findProduct s input.product_id).map
              (fun q => { q with
                stock_quantity := p.stock_quantity - input.quantity
                updated_at := now }) := by
      unfold itemSuccessPath
      rw [findProduct_updateProductRows]
      · rfl
      · exact fun _ => rfl
    rw [hbody, if_neg (not_lt.mpr hq)]
    refine ⟨_, _, rfl, rfl, rfl, ?_⟩
    have hstock : Option.map Product.stock_quantity
        (findProduct (itemSuccessPath s input now freshId p.stock_quantity).1
          input.product_id)
        = some (p.stock_quantity - input.quantity) := by
      rw [hfind, hp]
      rfl
    exact hstock
  · intro hq
    have herr : createTransactionItem s input now freshId
        = .error (.insufficientStock p.stock_quantity input.quantity) := by
      rw [hbody, if_pos hq]
    exact ⟨herr, by unfold stepItem; rw [herr]⟩

/-- Witness for C1: buying 3 of 5 in stock at 12.5 persists an item with
total_price 37.5 and leaves 2 in stock. -/
theorem createTransactionItem_spec_witness :
    ∃ s' item, createTransactionItem demoSaleDB demoItemInput 9 77
        = .ok (s', item)
      ∧ item.total_price = 75/2
      ∧ s'.items = demoSaleDB.items ++ [item]
      ∧ (findProduct s' 1).map Product.stock_quantity = some 2 := by
  obtain ⟨s', item, hok, hprice, hitems, hstock⟩ :=
    (createTransactionItem_spec demoSaleDB demoItemInput 9 77 demoTransaction
      demoProduct (by decide) (by decide)).1 (by decide)
  refine ⟨s', item, hok, by rw [hprice]; norm_num [demoItemInput], hitems, ?_⟩
  rw [show (1 : Nat) = demoItemInput.product_id from rfl, hstock]
  decide

/-- C3 counterexample. A product with `stock_quantity = minimum_stock`
satisfies the claimed inclusive predicate and is flagged low by the stock
report, yet `getLowStockProducts` does not return it: the claimed
`stock_quantity ≤ minimum_stock` characterisation of `getLowStockProducts`
is false. -/
theorem lowStock_inclusive_counterexample :
    boundaryProduct.stock_quantity ≤ boundaryProduct.minimum_stock
    ∧ (getStockReport boundaryDB).map StockReportRow.is_low_stock = [true]
    ∧ boundaryProduct ∈ boundaryDB.products
    ∧ boundaryProduct ∉ getLowStockProducts boundaryDB := by
  decide

/-- C3 (amended). The two exposures of low-stock classification differ
at the boundary: `getLowStockProducts` returns exactly the products with
`stock_quantity < minimum_stock` (strict), while the stock report
`is_low_stock` flag is `stock_quantity ≤ minimum_stock` (inclusive), so a
product exactly at its minimum is flagged by the report but not returned by
`getLowStockProducts`. -/
theorem lowStock_boundary (s : DB) (p : Product) (hp : p ∈ s.products) :
    (p ∈ getLowStockProducts s ↔ p.stock_quantity < p.minimum_stock)
    ∧ ((stockReportRow s.movements p).is_low_stock = true
        ↔ p.stock_quantity ≤ p.minimum_stock)
    ∧ stockReportRow s.movements p ∈ getStockReport s
    ∧ (p.stock_quantity = p.minimum_stock →
        p ∉ getLowStockProducts s
        ∧ (stockReportRow s.movements p).is_low_stock = true) := by
  refine ⟨?_, ?_, ?_, ?_⟩
  · unfold getLowStockProducts
    rw [List.mem_filter]
    simp [hp]
  · simp [stockReportRow]
  · exact List.mem_map_of_mem _ hp
  · intro hb
    constructor
    · unfold getLowStockProducts
      rw [List.mem_filter]
      simp [hb]
    · simp [stockReportRow, hb]

/-- Witness for the amended C3 at the boundary product: at
`stock_quantity = minimum_stock` the report flags it and the low-stock list
omits it. -/
theorem lowStock_boundary_witness :
    boundaryProduct ∉ getLowStockProducts boundaryDB
    ∧ (stockReportRow boundaryDB.movements boundaryProduct).is_low_stock
        = true :=
  (lowStock_boundary boundaryDB boundaryProduct (by decide)).2.2.2 (by decide)

/-- C6. `updateService`: for an existing service, an update whose
status field is `completed` sets `completed_at` to a non-null timestamp
(`now`); an update that does not set status to `completed` — whatever other
fields it touches, including a status change to `in_progress` — leaves
`completed_at` exactly as it was; no update clears it. -/
theorem updateService_completed_at (s : DB) (input : UpdateServiceInput)
    (now : Int) (svc : Service) (h : findService s input.id = some svc) :
    ∃ s' svc', updateService s input now = .ok (s', svc')
      ∧ findService s' input.id = some svc'
      ∧ (input.status = some ServiceStatus.completed →
          svc'.completed_at = some now)
      ∧ (input.status ≠ some ServiceStatus.completed →
          svc'.completed_at = svc.completed_at) := by
  have hfind :
      (updatedServices s input now).find? (fun v => v.id == input.id)
      = (findService s input.id).map (applyServiceUpdate input now) := by
    unfold findService updatedServices
    exact find_after_keyed_update s.services Service.id input.id
      (applyServiceUpdate input now) (fun _ => rfl)
  unfold updateService
  rw [hfind, h]
  refine ⟨_, _, rfl, ?_, ?_, ?_⟩
  · show (updatedServices s input now).find? (fun v => v.id == input.id)
        = some (applyServiceUpdate input now svc)
    rw [hfind, h]
    rfl
  · intro hst
    unfold applyServiceUpdate
    rw [if_pos hst]
  · intro hst
    unfold applyServiceUpdate
    rw [if_neg hst]

/-- Witness for C6: setting status to `in_progress` on a completed service
leaves the previously set `completed_at` (99) untouched. -/
theorem updateService_completed_at_witness :
    ∃ s' svc', updateService demoServiceDB demoReopenInput 123 = .ok (s', svc')
      ∧ svc'.completed_at = some 99 := by
  obtain ⟨s', svc', hok, _, _, hkeep⟩ :=
    updateService_completed_at demoServiceDB demoReopenInput 123 demoService
      (by decide)
  exact ⟨s', svc', hok, by rw [hkeep (by decide)]; rfl⟩

/-- The type of every transaction is `sale` or `service`, so summing
`total_amount` over the two type groups recovers the sum over the whole
selection. -/
theorem revenue_partition (l : List Transaction) :
    ((l.filter (fun t => t.type == TransactionType.service)).map
        (fun t => t.total_amount)).sum
    + ((l.filter (fun t => t.type == TransactionType.sale)).map
        (fun t => t.total_amount)).sum
    = (l.map (fun t => t.total_amount)).sum := by
  induction l with
  | nil => simp
  | cons x xs ih =>
    cases hx : x.type <;>
      simp only [List.filter_cons, List.map_cons, List.sum_cons, hx,
        beq_iff_eq, reduceCtorEq, decide_False, decide_True, if_true,
        if_false, ← ih] <;>
      ring

/-- The group-by loop of `getFinancialReport` reads the sum of the `service`
group out of the fold, or 0 when the group is absent — the plain sum over
the `service` selection either way. -/
theorem typeGroup_fold_service (l : List Transaction) :
    ((typeGroupRows l).foldl (fun acc r =>
        if r.1 = TransactionType.service then r.2 else acc) 0)
    = ((l.filter (fun t => t.type == TransactionType.service)).map
        (fun t => t.total_amount)).sum := by
  unfold typeGroupRows typeGroup
  cases hsa : l.filter (fun t => t.type == TransactionType.sale) <;>
  cases hse : l.filter (fun t => t.type == TransactionType.service) <;>
    simp [hsa, hse]

/-- Same for the `sale` group. -/
theorem typeGroup_fold_sale (l : List Transaction) :
    ((typeGroupRows l).foldl (fun acc r =>
        if r.1 = TransactionType.sale then r.2 else acc) 0)
    = ((l.filter (fun t => t.type == TransactionType.sale)).map
        (fun t => t.total_amount)).sum := by
  unfold typeGroupRows typeGroup
  cases hsa : l.filter (fun t => t.type == TransactionType.sale) <;>
  cases hse : l.filter (fun t => t.type == TransactionType.service) <;>
    simp [hsa, hse]

/-- C4. `getFinancialReport`: `total_revenue` is the sum of
`total_amount` over exactly the transactions in the inclusive date window;
`service_revenue` sums the rows of type `service` and `sales_revenue` the
rows of type `sale`, so `total_revenue = service_revenue + sales_revenue`;
`total_transactions` counts the matching rows; an empty window yields all
zeros and no error. -/
theorem getFinancialReport_spec (s : DB) (input : GetFinancialReportInput) :
    (getFinancialReport s input).total_revenue
        = ((matchingTransactions s input).map (fun t => t.total_amount)).sum
    ∧ (getFinancialReport s input).service_revenue
        = (((matchingTransactions s input).filter
              (fun t => t.type == TransactionType.service)).map
            (fun t => t.total_amount)).sum
    ∧ (getFinancialReport s input).sales_revenue
        = (((matchingTransactions s input).filter
              (fun t => t.type == TransactionType.sale)).map
            (fun t => t.total_amount)).sum
    ∧ (getFinancialReport s input).total_revenue
        = (getFinancialReport s input).service_revenue
          + (getFinancialReport s input).sales_revenue
    ∧ (getFinancialReport s input).total_transactions
        = (matchingTransactions s input).length
    ∧ (matchingTransactions s input = [] →
        (getFinancialReport s input).total_revenue = 0
        ∧ (getFinancialReport s input).service_revenue = 0
        ∧ (getFinancialReport s input).sales_revenue = 0
        ∧ (getFinancialReport s input).total_transactions = 0) := by
  have htot : (getFinancialReport s input).total_revenue
      = ((matchingTransactions s input).map (fun t => t.total_amount)).sum :=
    sqlSumQ_elim _
  have hserv : (getFinancialReport s input).service_revenue
      = (((matchingTransactions s input).filter
            (fun t => t.type == TransactionType.service)).map
          (fun t => t.total_amount)).sum :=
    typeGroup_fold_service _
  have hsale : (getFinancialReport s input).sales_revenue
      = (((matchingTransactions s input).filter
            (fun t => t.type == TransactionType.sale)).map
          (fun t => t.total_amount)).sum :=
    typeGroup_fold_sale _
  refine ⟨htot, hserv, hsale, ?_, rfl, ?_⟩
  · rw [htot, hserv, hsale]
    exact (revenue_partition _).symm
  · intro he
    refine ⟨?_, ?_, ?_, ?_⟩
    · rw [htot, he]; simp
    · rw [hserv, he]; simp
    · rw [hsale, he]; simp
    · show (matchingTransactions s input).length = 0
      rw [he]
      rfl

/-- Witness for C4: over a window matching no transaction, every numeric
field of the report is zero. -/
theorem getFinancialReport_spec_witness :
    (getFinancialReport finDB emptyWindowInput).total_revenue = 0
    ∧ (getFinancialReport finDB emptyWindowInput).service_revenue = 0
    ∧ (getFinancialReport finDB emptyWindowInput).sales_revenue = 0
    ∧ (getFinancialReport finDB emptyWindowInput).total_transactions = 0 :=
  (getFinancialReport_spec finDB emptyWindowInput).2.2.2.2.2 (by decide)

/-- C8. The `period` input of `getFinancialReport` is a label only: two
calls with the same dates but different period strings agree on every
output field except the echoed `period`. -/
theorem getFinancialReport_period_label (s : DB) (p₁ p₂ : String)
    (sd ed : Int) :
    (getFinancialReport s
        { period := p₁, start_date := sd, end_date := ed }).total_revenue
      = (getFinancialReport s
          { period := p₂, start_date := sd, end_date := ed }).total_revenue
    ∧ (getFinancialReport s
        { period := p₁, start_date := sd, end_date := ed }).service_revenue
      = (getFinancialReport s
          { period := p₂, start_date := sd, end_date := ed }).service_revenue
    ∧ (getFinancialReport s
        { period := p₁, start_date := sd, end_date := ed }).sales_revenue
      = (getFinancialReport s
          { period := p₂, start_date := sd, end_date := ed }).sales_revenue
    ∧ (getFinancialReport s
        { period := p₁, start_date := sd, end_date := ed }).total_transactions
      = (getFinancialReport s
          { period := p₂, start_date := sd, end_date := ed }).total_transactions
    ∧ (getFinancialReport s
        { period := p₁, start_date := sd, end_date := ed }).period_start
      = (getFinancialReport s
          { period := p₂, start_date := sd, end_date := ed }).period_start
    ∧ (getFinancialReport s
        { period := p₁, start_date := sd, end_date := ed }).period_end
      = (getFinancialReport s
          { period := p₂, start_date := sd, end_date := ed }).period_end :=
  ⟨rfl, rfl, rfl, rfl, rfl, rfl⟩

/-- C5 counterexample. The claim asserts
`stock_value = stock_quantity × price` to full decimal precision, but the
handler multiplies binary64 doubles: with 3 in stock at price 0.10 the
exact decimal product is 0.30, while the computed `stock_value` is the
double 0.30000000000000004 — the first conjunct evaluates the exact
product of the claim, the second evaluates `parseFloat` of the price, the
third the computed field, and the last refutes the claimed equality. -/
theorem stockValue_precision_counterexample :
    (floatProduct.stock_quantity : ℚ) * floatProduct.price = mkRat 3 10
    ∧ roundDouble floatProduct.price = mkRat 3602879701896397 36028797018963968
    ∧ (stockReportRow [] floatProduct).stock_value
        = mkRat 1351079888211149 4503599627370496
    ∧ (stockReportRow [] floatProduct).stock_value
        ≠ (floatProduct.stock_quantity : ℚ) * floatProduct.price := by
  have hexact : (floatProduct.stock_quantity : ℚ) * floatProduct.price
      = mkRat 3 10 := by
    norm_num [floatProduct, Rat.mkRat_eq_div]
  have hval : (stockReportRow [] floatProduct).stock_value
      = mkRat 1351079888211149 4503599627370496 := by decide
  refine ⟨hexact, by decide, hval, ?_⟩
  rw [hval, hexact]
  decide

/-- C5 (amended). `getStockReport`: the report row of each product has
`stock_in` the sum of the quantities of the movements of the product of
type `in` (0 when there are none — the empty sum), `stock_out` the sum of
the type-`out` quantities, and `stock_value` the binary64 product
`currentStock * parseFloat(price)` — the exact decimal product rounded
through two double roundings, which can differ from
`stock_quantity × price` (3 × 0.10 yields 0.30000000000000004, and
7 × 12.99 yields the double nearest 90.93 rather than 90.93 exactly). -/
theorem getStockReport_spec (s : DB) (p : Product) (hp : p ∈ s.products) :
    stockReportRow s.movements p ∈ getStockReport s
    ∧ (stockReportRow s.movements p).stock_in
        = ((s.movements.filter (fun m =>
              m.product_id == p.id && m.type == MovementType.inM)).map
            (fun m => m.quantity)).sum
    ∧ (stockReportRow s.movements p).stock_out
        = ((s.movements.filter (fun m =>
              m.product_id == p.id && m.type == MovementType.outM)).map
            (fun m => m.quantity)).sum
    ∧ (stockReportRow s.movements p).stock_value
        = jsMul (mkRat p.stock_quantity 1) (roundDouble p.price) := by
  refine ⟨List.mem_map_of_mem _ hp, ?_, ?_, rfl⟩
  · exact sqlSumInt_elim _
  · exact sqlSumInt_elim _

/-- Witness for the amended C5: the report row of `reportProduct` has
stock_in 30, stock_out 25 (the movement of the unrelated product is not
counted), and stock_value the double nearest 90.93
(1599657477018747 / 2 ^ 44), which is not exactly 9093/100. -/
theorem getStockReport_spec_witness :
    (stockReportRow reportDB.movements reportProduct).stock_in = 30
    ∧ (stockReportRow reportDB.movements reportProduct).stock_out = 25
    ∧ (stockReportRow reportDB.movements reportProduct).stock_value
        = mkRat 1599657477018747 17592186044416 := by
  obtain ⟨_, hin, hout, hval⟩ :=
    getStockReport_spec reportDB reportProduct (by simp [reportDB])
  refine ⟨?_, ?_, ?_⟩
  · rw [hin]; decide
  · rw [hout]; decide
  · rw [hval]; decide

/-- C7 (code-bug evidence). On a missing id, `getProduct` returns
null and list endpoints return empty arrays as claimed, and `updateService`
raises NotFound as claimed — but `updateProduct` is a placeholder that
resolves successfully with a fabricated product instead of raising
NotFound. -/
theorem missing_id_behavior :
    getProduct emptyDB 999 = none
    ∧ getServices emptyDB = []
    ∧ getTransactions emptyDB = []
    ∧ updateService emptyDB missingServiceUpdate 0
        = .error (.notFound "Service" 999)
    ∧ updateProduct missingProductUpdate 0
        = .ok { id := 999, name := "X", description := none,
                type := ProductType.sparepart, price := 0,
                stock_quantity := 0, minimum_stock := 0,
                created_at := 0, updated_at := 0 } := by
  refine ⟨rfl, rfl, rfl, rfl, rfl⟩

/-- C9. Starting from stock 50, applying movement(in,30), then
movement(out,25), then movement(in,10) — at increasing timestamps 1,2,3 —
leaves stock_quantity = 65, and `getStockMovementsByProduct` returns
exactly those 3 movements ordered newest-first. -/
theorem movement_history_scenario :
    (findProduct
        (stepMovement
          (stepMovement
            (stepMovement scenarioDB (scenarioMove MovementType.inM 30) 1 101)
            (scenarioMove MovementType.outM 25) 2 102)
          (scenarioMove MovementType.inM 10) 3 103) 1).map
        Product.stock_quantity
      = some 65
    ∧ (getStockMovementsByProduct
        (stepMovement
          (stepMovement
            (stepMovement scenarioDB (scenarioMove MovementType.inM 30) 1 101)
            (scenarioMove MovementType.outM 25) 2 102)
          (scenarioMove MovementType.inM 10) 3 103) 1).map
        (fun m => (m.id, m.type, m.quantity, m.created_at))
      = [(103, MovementType.inM, 10, 3),
         (102, MovementType.outM, 25, 2),
         (101, MovementType.inM, 30, 1)] := by
  decide

/-- Updating the rows of one product to a non-negative stock value preserves
store-wide non-negativity. -/
theorem allStocksNonneg_update (s : DB) (pid : Nat) (newStock : Int)
    (now : Int) (hnew : 0 ≤ newStock) (h : allStocksNonneg s) :
    allStocksNonneg (updateProductRows s pid
      (fun p => { p with stock_quantity := newStock, updated_at := now })) := by
  intro q hq
  unfold updateProductRows at hq
  simp only [List.mem_map] at hq
  obtain ⟨r, hr, hrq⟩ := hq
  by_cases hid : r.id == pid
  · rw [if_pos hid] at hrq
    rw [← hrq]
    exact hnew
  · rw [if_neg hid] at hrq
    rw [← hrq]
    exact h r hr

/-- A single `createTransactionItem` call — succeeding or failing —
preserves non-negative stock: the handler rejects any request whose
quantity exceeds the current stock before writing anything. -/
theorem stepItem_preserves_nonneg (s : DB)
    (input : CreateTransactionItemInput) (now : Int) (freshId : Nat)
    (h : allStocksNonneg s) :
    allStocksNonneg (stepItem s input now freshId) := by
  cases htx : findTransaction s input.transaction_id with
  | none =>
    have hstep : stepItem s input now freshId = s := by
      unfold stepItem createTransactionItem
      rw [htx]
    rw [hstep]
    exact h
  | some tx =>
    cases hp : findProduct s input.product_id with
    | none =>
      have hstep : stepItem s input now freshId = s := by
        unfold stepItem createTransactionItem
        rw [htx, hp]
      rw [hstep]
      exact h
    | some p =>
      have hbody : createTransactionItem s input now freshId
          = (if p.stock_quantity < input.quantity
             then .error (.insufficientStock p.stock_quantity input.quantity)
             else .ok (itemSuccessPath s input now freshId p.stock_quantity)) := by
        unfold createTransactionItem
        rw [htx, hp]
      unfold stepItem
      rw [hbody]
      by_cases hq : p.stock_quantity < input.quantity
      · rw [if_pos hq]
        exact h
      · rw [if_neg hq]
        show allStocksNonneg
          (itemSuccessPath s input now freshId p.stock_quantity).1
        exact allStocksNonneg_update _ input.product_id _ now
          (by omega) (fun q hq' => h q hq')

/-- C10. From any state in which the stock of every product is non-negative,
any sequence of sequentially executed `createTransactionItem` calls —
whether each succeeds or fails — preserves non-negative stock for every
product. -/
theorem runItems_preserves_nonneg (s : DB)
    (batch : List (CreateTransactionItemInput × Int × Nat))
    (h : allStocksNonneg s) :
    allStocksNonneg (runItems s batch) := by
  induction batch generalizing s with
  | nil => exact h
  | cons b rest ih =>
    obtain ⟨input, now, freshId⟩ := b
    exact ih _ (stepItem_preserves_nonneg s input now freshId h)

/-- Witness for C10: selling all 10 and then attempting 1 more leaves the
stock at exactly 0, never negative. -/
theorem runItems_preserves_nonneg_witness :
    allStocksNonneg (runItems invariantDB invariantBatch)
    ∧ (findProduct (runItems invariantDB invariantBatch) 1).map
        Product.stock_quantity = some 0 :=
  ⟨runItems_preserves_nonneg invariantDB invariantBatch (by decide),
   by decide⟩

end KomputerServis
